import Mathlib

/-!
Shallow embedding of `static/app.js`, the browser-side workflow controller of
the document-merging tool.  The repository carries two variants of the file
(separated by a document marker): variant 1 uses a fixed title whitelist and
three data sources (`folder`, `upload`, `upload_dir`) with two upload tokens;
variant 2 uses a server-derived title set per heading level and two sources
(`folder`, `upload`) with a single token.  They are embedded as namespaces
`V1` and `V2`.

Handlers are embedded as pure functions: the module-level mutable variables
and the rendered DOM fragments they touch form an explicit state record, the
form controls they read form an input record, and the server's answer to the
single fetch a handler performs is passed as a response record.  Each handler
returns the new state together with the list of HTTP requests it issued
(empty when client-side validation blocked the request).  The client-side
download trigger that follows a successful merge response manipulates Blob
and anchor objects only; it is outside the embedded fragment.
-/

/-- An entry of `files_meta` as consumed by the client: `{name, count, titles}`. -/
structure FileMeta where
  name : String
  count : Nat
  titles : List String
deriving DecidableEq, Repr

/-- An `<option>` of a multi-select list: its value and whether it is selected. -/
structure Opt where
  value : String
  selected : Bool
deriving DecidableEq, Repr

/-- The rendered `#files-table` body: either the "Sin datos" placeholder row or
one data row per `FileMeta` entry. -/
inductive TableView where
  | placeholder
  | rows (entries : List FileMeta)
deriving DecidableEq, Repr

/-- Number of data rows of the rendered table (the placeholder carries none). -/
def TableView.dataRowCount : TableView → Nat
  | .placeholder => 0
  | .rows entries => entries.length

/-- Code points removed by JS `String.prototype.trim` (ASCII whitespace,
NBSP, BOM and the line/paragraph separators; the remaining Zs code points do
not occur in the strings this client handles). -/
def jsWhitespace (c : Char) : Bool :=
  c = ' ' || c = '\t' || c = '\n' || c = '\r' ||
  c = '\x0b' || c = '\x0c' || c = '\u00A0' || c = '\uFEFF' ||
  c = '\u2028' || c = '\u2029'

/-- JS `s.trim()`: strip leading and trailing whitespace. -/
def jsTrim (s : String) : String :=
  ⟨((s.data.dropWhile jsWhitespace).reverse.dropWhile jsWhitespace).reverse⟩

/-- JS `s.toLowerCase()` restricted to simple per-character lowering. -/
def jsToLower (s : String) : String :=
  ⟨s.data.map Char.toLower⟩

/-- JS `s.endsWith(suffix)`. -/
def jsEndsWith (s suffix : String) : Bool :=
  suffix.data.isSuffixOf s.data

/-- JS truthiness of a nullable string: `null`, `undefined` and `""` are falsy. -/
def truthyStr : Option String → Bool
  | none => false
  | some s => s ≠ ""

/-- JS `a || b` on nullable strings (first truthy operand, else `b`). -/
def jsOrStr (a b : Option String) : Option String :=
  if truthyStr a then a else b

/-- JS `e || s` for `log("ERROR: " + (js.error || res.status))`: the server
error string when truthy, else the HTTP status rendered as text. -/
def errorOrStatus (error : Option String) (status : Nat) : String :=
  match error with
  | some s => if s = "" then toString status else s
  | none => toString status

/-- JS template rendering of a nullable string (`undefined` when absent). -/
def jsShowStr : Option String → String
  | some s => s
  | none => "undefined"

/-- JS template rendering of a nullable number (`undefined` when absent). -/
def jsShowNat : Option Nat → String
  | some n => toString n
  | none => "undefined"

/-- `sel.selectedIndex = -1` / clearing a select: every option deselected. -/
def deselectAll (opts : List Opt) : List Opt :=
  opts.map (fun o => { o with selected := false })

/-- `Array.from(sel.selectedOptions).map(o => o.value)`. -/
def selectedValues (opts : List Opt) : List String :=
  (opts.filter (fun o => o.selected)).map (fun o => o.value)

/-- `setBadges`: text of `#badge-archivos`, `${n} archivo${n===1?"":"s"}`. -/
def badgeArchivosText (n : Nat) : String :=
  toString n ++ " archivo" ++ (if n = 1 then "" else "s")

/-- `setBadges` (variant 2): text of `#badge-titulos`. -/
def badgeTitulosText (n : Nat) : String :=
  toString n ++ " título" ++ (if n = 1 then "" else "s")

/-- `drawFilesTable`: empty metadata renders the placeholder row, otherwise
one row per entry. -/
def drawFilesTable (filesMeta : List FileMeta) : TableView :=
  if filesMeta.isEmpty then .placeholder else .rows filesMeta

namespace V1

/-- The values `lastSource` takes in variant 1: `folder | upload | upload_dir`. -/
inductive Source where
  | folder
  | upload
  | upload_dir
deriving DecidableEq, Repr

/-- `TITULOS_WHITELIST`, the fixed list of canonical section titles
(copied byte-for-byte from the source, including the zero-width space ending
the first entry and the trailing blanks of entries 26 and 28). -/
def TITULOS_WHITELIST : List String := [
  "1. Introducción​",
  "2. Diagnóstico estratégico",
  "3. Misión, visión y valores de la carrera",
  "01. Plan de formación integral del estudiante",
  "06. Plan de admisión, acogida y acompañamiento académico de estudiantes",
  "23. Plan de seguimiento y mejora de indicadores del perfil docente",
  "25. Plan de formación integral del docente",
  "26. Plan de mejora del proceso de evaluación integral docente ",
  "03. Plan implantación del marco de competencias UTPL",
  "04. Plan de prospectiva y creación de nueva oferta",
  "07. Plan de acciones curriculares para el fortalecimiento de las competencias genéricas",
  "11. Plan de fortalecimiento de prácticas preprofesionales y proyectos de vinculación",
  "12. Plan de fortalecimiento de criterios para la evaluación de la calidad de carreras y programas académicos",
  "13. Plan de acciones curriculares para el fortalecimiento de la empleabilidad del graduado UTPL",
  "16. Plan de mejora del proceso de elaboración y seguimiento de planes docentes",
  "18. Plan de mejora de ambientes de aprendizaje",
  "19. Plan de mejora de evaluación de los aprendizajes",
  "20. Plan de mejora del proceso de integración curricular",
  "21. Plan de mejora del proceso de titulación",
  "22. Plan de seguimiento y mejora de la labor tutorial",
  "08. Plan de internacionalización del currículo",
  "24. Plan de intervención de personal académico en territorio",
  "05. Plan de acciones académicas orientadas a la comunicación y promoción de la oferta",
  "09. Plan de innovación educativa",
  "10. Plan de implantación de metodologías activas en el currículo",
  "28. Plan de formación de líderes académicos ",
  "29. Plan de posicionamiento institucional en innovación educativa",
  "30. Plan de investigación sobre innovación educativa, EaD, MP"
]

/-- Module-level mutable state plus the DOM fragments the handlers write:
`uploadToken`, `uploadDirToken`, `lastSource`, `lastFilesMeta`, the
`#whitelist` options, the files table, the files badge and the log panel. -/
structure St where
  uploadToken : Option String
  uploadDirToken : Option String
  lastSource : Source
  lastFilesMeta : List FileMeta
  whitelistOpts : List Opt
  table : TableView
  badgeArchivos : String
  logs : List String
deriving DecidableEq, Repr

/-- Form controls the handlers read: `#folder`, `#include_subs`, the `#files`
and `#folderInput` file lists (as file names), `#use_all` and the mode radio. -/
structure Inputs where
  folderValue : String
  includeSubs : Bool
  filesList : List String
  folderInputList : List String
  useAll : Bool
  mode : String
deriving DecidableEq, Repr

/-- Parsed JSON body of a scan response together with the HTTP status. -/
structure ScanResponse where
  ok : Bool
  error : Option String
  token : Option String
  count : Option Nat
  files_meta : Option (List FileMeta)
  status : Nat
deriving DecidableEq, Repr

/-- JSON body POSTed to `/api/scan-folder`. -/
structure ScanFolderReq where
  folder : String
  include_subs : Bool
  whitelist : List String
deriving DecidableEq, Repr

/-- Form data POSTed to `/api/scan-upload`: the `whitelist[]` entries and the
appended `files`. -/
structure ScanUploadReq where
  whitelist : List String
  files : List String
deriving DecidableEq, Repr

/-- JSON body POSTed to `/api/cleanup`. -/
structure CleanupReq where
  token : String
deriving DecidableEq, Repr

/-- JSON body POSTed to `/api/merge`; optional fields are absent (`none`)
unless the branch for the active source set them. -/
structure MergePayload where
  source : Source
  mode : String
  titles : List String
  folder : Option String := none
  include_subs : Option Bool := none
  token : Option String := none
deriving DecidableEq, Repr

/-- `scanFolder` (variant 1): resets source, both tokens, selection, table and
badge, sends the scan-folder request, and on an ok body stores the returned
metadata; on a non-ok body logs the error and stores nothing. -/
def scanFolder (st : St) (inp : Inputs) (resp : ScanResponse) :
    St × List ScanFolderReq :=
  let st1 : St :=
    { st with
      lastSource := .folder, uploadToken := none, uploadDirToken := none,
      whitelistOpts := deselectAll st.whitelistOpts,
      table := drawFilesTable [], badgeArchivos := badgeArchivosText 0,
      logs := st.logs ++ ["Escaneando carpeta en servidor..."] }
  let req : ScanFolderReq :=
    { folder := jsTrim inp.folderValue, include_subs := inp.includeSubs,
      whitelist := TITULOS_WHITELIST }
  if !resp.ok then
    ({ st1 with
       logs := st1.logs ++ ["ERROR: " ++ errorOrStatus resp.error resp.status] },
     [req])
  else
    let meta := resp.files_meta.getD []
    ({ st1 with
       lastFilesMeta := meta,
       badgeArchivos := badgeArchivosText (resp.count.getD 0),
       table := drawFilesTable meta,
       logs := st1.logs ++
         ["Archivos: " ++ jsShowNat resp.count ++
          " | títulos totales en whitelist: " ++
          toString TITULOS_WHITELIST.length] },
     [req])

/-- `scanUpload` (variant 1): resets source to `upload`, nulls only the
directory token, blocks on an empty `#files` list, otherwise sends the form
data (whitelist plus all chosen files) and on an ok body stores the returned
token and metadata. -/
def scanUpload (st : St) (inp : Inputs) (resp : ScanResponse) :
    St × List ScanUploadReq :=
  let st1 : St :=
    { st with
      lastSource := .upload, uploadDirToken := none,
      whitelistOpts := deselectAll st.whitelistOpts,
      table := drawFilesTable [], badgeArchivos := badgeArchivosText 0 }
  if inp.filesList.isEmpty then
    ({ st1 with logs := st1.logs ++ ["Selecciona .docx primero."] }, [])
  else
    let st2 : St :=
      { st1 with logs := st1.logs ++
        ["Subiendo " ++ toString inp.filesList.length ++ " archivo(s)..."] }
    let req : ScanUploadReq :=
      { whitelist := TITULOS_WHITELIST, files := inp.filesList }
    if !resp.ok then
      ({ st2 with
         logs := st2.logs ++ ["ERROR: " ++ errorOrStatus resp.error resp.status] },
       [req])
    else
      let meta := resp.files_meta.getD []
      ({ st2 with
         uploadToken := resp.token,
         lastFilesMeta := meta,
         badgeArchivos := badgeArchivosText (resp.count.getD 0),
         table := drawFilesTable meta,
         logs := st2.logs ++
           ["Token: " ++ jsShowStr resp.token ++ " | Archivos: " ++
            jsShowNat resp.count] },
       [req])

/-- `scanUploadDir` (variant 1): like `scanUpload` but for the `#folderInput`
directory picker, nulling only the plain upload token; the emptiness guard is
on the raw file list, and only files whose lowercased name ends in `.docx`
are appended to the form data. -/
def scanUploadDir (st : St) (inp : Inputs) (resp : ScanResponse) :
    St × List ScanUploadReq :=
  let st1 : St :=
    { st with
      lastSource := .upload_dir, uploadToken := none,
      whitelistOpts := deselectAll st.whitelistOpts,
      table := drawFilesTable [], badgeArchivos := badgeArchivosText 0 }
  if inp.folderInputList.isEmpty then
    ({ st1 with logs := st1.logs ++ ["Selecciona una carpeta con .docx."] }, [])
  else
    let st2 : St :=
      { st1 with logs := st1.logs ++
        ["Subiendo carpeta con " ++ toString inp.folderInputList.length ++
         " archivo(s)..."] }
    let req : ScanUploadReq :=
      { whitelist := TITULOS_WHITELIST,
        files := inp.folderInputList.filter
          (fun f => jsEndsWith (jsToLower f) ".docx") }
    if !resp.ok then
      ({ st2 with
         logs := st2.logs ++ ["ERROR: " ++ errorOrStatus resp.error resp.status] },
       [req])
    else
      let meta := resp.files_meta.getD []
      ({ st2 with
         uploadDirToken := resp.token,
         lastFilesMeta := meta,
         badgeArchivos := badgeArchivosText (resp.count.getD 0),
         table := drawFilesTable meta,
         logs := st2.logs ++
           ["Token: " ++ jsShowStr resp.token ++ " | Archivos: " ++
            jsShowNat resp.count] },
       [req])

/-- `mergeNow` (variant 1), embedded up to the request decision: validates the
selection, the folder path or the token for the active source; a blocked run
appends the prompt to the log and sends nothing (`none`), otherwise the
payload is built for the active source and logged as sent (`some`). -/
def mergeNow (st : St) (inp : Inputs) : St × Option MergePayload :=
  let use_all := inp.useAll
  if !use_all && (selectedValues st.whitelistOpts).isEmpty then
    ({ st with logs := st.logs ++
       ["Selecciona al menos un título o marca \x27Usar todos\x27."] }, none)
  else
    let selected :=
      if use_all then TITULOS_WHITELIST else selectedValues st.whitelistOpts
    let base : MergePayload :=
      { source := st.lastSource, mode := inp.mode, titles := selected }
    match st.lastSource with
    | .folder =>
      let folder := jsTrim inp.folderValue
      if folder = "" then
        ({ st with logs := st.logs ++ ["Ingresa la ruta de la carpeta."] }, none)
      else
        ({ st with logs := st.logs ++ ["Generando ZIP..."] },
         some { base with folder := some folder,
                          include_subs := some inp.includeSubs })
    | .upload =>
      if !truthyStr st.uploadToken then
        ({ st with logs := st.logs ++ ["Primero sube y escanea archivos."] },
         none)
      else
        ({ st with logs := st.logs ++ ["Generando ZIP..."] },
         some { base with token := st.uploadToken })
    | .upload_dir =>
      if !truthyStr st.uploadDirToken then
        ({ st with logs := st.logs ++ ["Primero sube y escanea la carpeta."] },
         none)
      else
        ({ st with logs := st.logs ++ ["Generando ZIP..."] },
         some { base with token := st.uploadDirToken })

/-- `cleanup` (variant 1): with no truthy token (`uploadToken || uploadDirToken`)
it only logs; with one it POSTs that token and nulls both local tokens. -/
def cleanup (st : St) : St × List CleanupReq :=
  let token := jsOrStr st.uploadToken st.uploadDirToken
  if !truthyStr token then
    ({ st with logs := st.logs ++ ["No hay subidas por limpiar."] }, [])
  else
    ({ st with
       uploadToken := none, uploadDirToken := none,
       logs := st.logs ++ ["Subidas temporales limpiadas."] },
     [{ token := token.getD "" }])

/-- The `#use_all` change handler: when it became checked, deselect every
`#whitelist` option; otherwise do nothing. -/
def useAllChange (checked : Bool) (st : St) : St :=
  if checked then { st with whitelistOpts := deselectAll st.whitelistOpts }
  else st

/-- State after `DOMContentLoaded`: null tokens, `folder` source, empty
metadata, the whitelist rendered as unselected options by `fillWhitelist`. -/
def initSt : St :=
  { uploadToken := none, uploadDirToken := none, lastSource := .folder,
    lastFilesMeta := [],
    whitelistOpts := TITULOS_WHITELIST.map
      (fun t => { value := t, selected := false }),
    table := drawFilesTable [], badgeArchivos := badgeArchivosText 0,
    logs := [] }

/-- At most one of the two upload tokens is non-null. -/
def tokExcl (st : St) : Prop :=
  st.uploadToken = none ∨ st.uploadDirToken = none

instance (st : St) : Decidable (tokExcl st) := by
  unfold tokExcl; infer_instance

end V1

namespace V2

/-- The values `lastSource` takes in variant 2: `folder | upload`. -/
inductive Source where
  | folder
  | upload
deriving DecidableEq, Repr

/-- Module-level mutable state plus the DOM fragments the handlers write:
`uploadToken`, `lastSource`, `lastFilesMeta`, the `#titles` options, the files
table, both badges and the log panel. -/
structure St where
  uploadToken : Option String
  lastSource : Source
  lastFilesMeta : List FileMeta
  titlesOpts : List Opt
  table : TableView
  badgeArchivos : String
  badgeTitulos : String
  logs : List String
deriving DecidableEq, Repr

/-- Form controls the handlers read: `#folder`, `#include_subs`, the `#files`
file list, `#use_all`, the mode radio, and the `#level` control both as its
raw string value (sent in scan-upload form data) and as `parseInt(value, 10)`
(sent in JSON bodies). -/
structure Inputs where
  folderValue : String
  includeSubs : Bool
  filesList : List String
  useAll : Bool
  mode : String
  levelValue : String
  level : Int
deriving DecidableEq, Repr

/-- Parsed JSON body of a scan response together with the HTTP status;
variant 2 responses also carry the per-level title set. -/
structure ScanResponse where
  ok : Bool
  error : Option String
  token : Option String
  count : Option Nat
  files_meta : Option (List FileMeta)
  titles : Option (List String)
  status : Nat
deriving DecidableEq, Repr

/-- JSON body POSTed to `/api/scan-folder`. -/
structure ScanFolderReq where
  folder : String
  include_subs : Bool
  level : Int
deriving DecidableEq, Repr

/-- Form data POSTed to `/api/scan-upload`: the raw `level` value and the
appended `files`. -/
structure ScanUploadReq where
  level : String
  files : List String
deriving DecidableEq, Repr

/-- JSON body POSTed to `/api/cleanup`. -/
structure CleanupReq where
  token : String
deriving DecidableEq, Repr

/-- JSON body POSTed to `/api/merge`; `level`, `use_all` and `titles` are
always present, the source-specific fields only on their branch. -/
structure MergePayload where
  source : Source
  mode : String
  level : Int
  use_all : Bool
  titles : List String
  folder : Option String := none
  include_subs : Option Bool := none
  token : Option String := none
deriving DecidableEq, Repr

/-- `fillTitles`: renders the given titles as unselected options and updates
both badges from `lastFilesMeta.length` and `titles.length`. -/
def fillTitles (titles : List String) (st : St) : St :=
  { st with
    titlesOpts := titles.map (fun t => { value := t, selected := false }),
    badgeArchivos := badgeArchivosText st.lastFilesMeta.length,
    badgeTitulos := badgeTitulosText titles.length }

/-- `scanFolder` (variant 2): resets source, the token, the title list, table
and badges, sends the scan-folder request with the parsed level, and on an ok
body stores the metadata and renders the returned title set; on a non-ok body
logs the error and stores nothing.  (On an ok body with `titles` absent the
original code would throw reading `js.titles.length`; the embedding renders
the `undefined` length over the empty list, a path no claim depends on.) -/
def scanFolder (st : St) (inp : Inputs) (resp : ScanResponse) :
    St × List ScanFolderReq :=
  let st1 : St :=
    { st with
      lastSource := .folder, uploadToken := none,
      titlesOpts := [],
      table := drawFilesTable [], badgeArchivos := badgeArchivosText 0,
      badgeTitulos := badgeTitulosText 0,
      logs := st.logs ++ ["Escaneando carpeta..."] }
  let req : ScanFolderReq :=
    { folder := jsTrim inp.folderValue, include_subs := inp.includeSubs,
      level := inp.level }
  if !resp.ok then
    ({ st1 with
       logs := st1.logs ++ ["ERROR: " ++ errorOrStatus resp.error resp.status] },
     [req])
  else
    let meta := resp.files_meta.getD []
    let titles := resp.titles.getD []
    let st2 : St :=
      { st1 with
        lastFilesMeta := meta,
        logs := st1.logs ++
          ["Archivos: " ++ jsShowNat resp.count ++
           " | Títulos (únicos, nivel) : " ++ toString titles.length] }
    ({ fillTitles titles st2 with table := drawFilesTable meta }, [req])

/-- `scanUpload` (variant 2): resets source to `upload` (the token is not
nulled up front here), blocks on an empty `#files` list, otherwise sends the
form data (raw level value plus all chosen files) and on an ok body stores the
returned token and metadata and renders the returned title set. -/
def scanUpload (st : St) (inp : Inputs) (resp : ScanResponse) :
    St × List ScanUploadReq :=
  let st1 : St :=
    { st with
      lastSource := .upload,
      titlesOpts := [],
      table := drawFilesTable [], badgeArchivos := badgeArchivosText 0,
      badgeTitulos := badgeTitulosText 0 }
  if inp.filesList.isEmpty then
    ({ st1 with logs := st1.logs ++ ["Selecciona .docx primero."] }, [])
  else
    let st2 : St :=
      { st1 with logs := st1.logs ++
        ["Subiendo " ++ toString inp.filesList.length ++ " archivo(s)..."] }
    let req : ScanUploadReq :=
      { level := inp.levelValue, files := inp.filesList }
    if !resp.ok then
      ({ st2 with
         logs := st2.logs ++ ["ERROR: " ++ errorOrStatus resp.error resp.status] },
       [req])
    else
      let meta := resp.files_meta.getD []
      let titles := resp.titles.getD []
      let st3 : St :=
        { st2 with
          uploadToken := resp.token,
          lastFilesMeta := meta,
          logs := st2.logs ++
            ["Token: " ++ jsShowStr resp.token ++ " | Archivos: " ++
             jsShowNat resp.count ++ " | Títulos (únicos): " ++
             toString titles.length] }
      ({ fillTitles titles st3 with table := drawFilesTable meta }, [req])

/-- `mergeNow` (variant 2), embedded up to the request decision: like
variant 1 but the payload always carries `level` and `use_all`, and with
`use_all` checked the `titles` list stays empty. -/
def mergeNow (st : St) (inp : Inputs) : St × Option MergePayload :=
  let use_all := inp.useAll
  if !use_all && (selectedValues st.titlesOpts).isEmpty then
    ({ st with logs := st.logs ++
       ["Selecciona al menos un título o marca \x27Usar todos\x27."] }, none)
  else
    let selected := if use_all then [] else selectedValues st.titlesOpts
    let base : MergePayload :=
      { source := st.lastSource, mode := inp.mode, level := inp.level,
        use_all := use_all, titles := selected }
    match st.lastSource with
    | .folder =>
      let folder := jsTrim inp.folderValue
      if folder = "" then
        ({ st with logs := st.logs ++ ["Ingresa la ruta de la carpeta."] }, none)
      else
        ({ st with logs := st.logs ++ ["Generando ZIP..."] },
         some { base with folder := some folder,
                          include_subs := some inp.includeSubs })
    | .upload =>
      if !truthyStr st.uploadToken then
        ({ st with logs := st.logs ++ ["Primero sube y escanea archivos."] },
         none)
      else
        ({ st with logs := st.logs ++ ["Generando ZIP..."] },
         some { base with token := st.uploadToken })

/-- `cleanup` (variant 2): with no truthy token it only logs; with one it
POSTs that token and nulls the local token. -/
def cleanup (st : St) : St × List CleanupReq :=
  if !truthyStr st.uploadToken then
    ({ st with logs := st.logs ++ ["No hay subidas por limpiar."] }, [])
  else
    ({ st with
       uploadToken := none,
       logs := st.logs ++ ["Subidas temporales limpiadas."] },
     [{ token := st.uploadToken.getD "" }])

/-- The `#level` change handler: empties the `#titles` options, resets the
files table to its placeholder, zeroes both badges and logs the re-scan
instruction. -/
def levelChange (st : St) : St :=
  { st with
    titlesOpts := [],
    table := drawFilesTable [],
    badgeArchivos := badgeArchivosText 0,
    badgeTitulos := badgeTitulosText 0,
    logs := st.logs ++ ["Nivel cambiado: vuelve a Escanear títulos."] }

/-- The `#use_all` change handler: when it became checked, deselect every
`#titles` option; otherwise do nothing. -/
def useAllChange (checked : Bool) (st : St) : St :=
  if checked then { st with titlesOpts := deselectAll st.titlesOpts }
  else st

end V2

/-! Concrete sample states, inputs and responses used to exercise the
handlers on closed instances. -/

/-- A variant-1 state as left by `DOMContentLoaded` except for a small
whitelist rendering with one explicit selection. -/
def v1StSel : V1.St :=
  { uploadToken := none, uploadDirToken := none, lastSource := .folder,
    lastFilesMeta := [],
    whitelistOpts := [{ value := "T1", selected := true },
                      { value := "T2", selected := false }],
    table := .placeholder, badgeArchivos := badgeArchivosText 0, logs := [] }

/-- A variant-1 state holding a plain upload token, source `upload`. -/
def v1StTok : V1.St :=
  { v1StSel with lastSource := .upload, uploadToken := some "tok-1" }

/-- A variant-1 state with no selection and no tokens. -/
def v1StEmpty : V1.St :=
  { v1StSel with whitelistOpts := [{ value := "T1", selected := false }] }

/-- Variant-1 form inputs: a folder path, one chosen file, a directory pick
containing a single non-`.docx` file, explicit selection mode. -/
def v1Inp : V1.Inputs :=
  { folderValue := "C:/docs", includeSubs := false, filesList := ["a.docx"],
    folderInputList := ["b.pdf"], useAll := false, mode := "unificado" }

/-- Variant-1 inputs with `#use_all` checked. -/
def v1InpAll : V1.Inputs := { v1Inp with useAll := true }

/-- A failing scan response carrying a server error string. -/
def v1RespFail : V1.ScanResponse :=
  { ok := false, error := some "boom", token := none, count := none,
    files_meta := none, status := 500 }

/-- The documented edge-case response: `ok` with `count: 2` but a single
`files_meta` entry. -/
def v1RespMismatch : V1.ScanResponse :=
  { ok := true, error := none, token := none, count := some 2,
    files_meta := some [{ name := "a.docx", count := 1, titles := ["T1"] }],
    status := 200 }

/-- A variant-2 state with one rendered title selected, source `folder`. -/
def v2StSel : V2.St :=
  { uploadToken := none, lastSource := .folder, lastFilesMeta := [],
    titlesOpts := [{ value := "T1", selected := true },
                   { value := "T2", selected := false }],
    table := .placeholder, badgeArchivos := badgeArchivosText 0,
    badgeTitulos := badgeTitulosText 0, logs := [] }

/-- A variant-2 state holding an upload token, source `upload`. -/
def v2StTok : V2.St :=
  { v2StSel with lastSource := .upload, uploadToken := some "tok-2" }

/-- Variant-2 form inputs, explicit selection mode, level 2. -/
def v2Inp : V2.Inputs :=
  { folderValue := "C:/docs", includeSubs := true, filesList := ["a.docx"],
    useAll := false, mode := "grouped", levelValue := "2", level := 2 }

/-- Variant-2 inputs with `#use_all` checked. -/
def v2InpAll : V2.Inputs := { v2Inp with useAll := true }

/-- A failing variant-2 scan response with no error string in the body. -/
def v2RespFail : V2.ScanResponse :=
  { ok := false, error := none, token := none, count := none,
    files_meta := none, titles := none, status := 404 }

/-- The payload variant-1 `mergeNow` sends from `v1StSel` and `v1Inp`. -/
def v1Payload : V1.MergePayload :=
  { source := .folder, mode := "unificado", titles := ["T1"],
    folder := some "C:/docs", include_subs := some false }

/-- The payload variant-2 `mergeNow` sends from `v2StTok` and `v2InpAll`. -/
def v2Payload : V2.MergePayload :=
  { source := .upload, mode := "grouped", level := 2, use_all := true,
    titles := [], token := some "tok-2" }

/-! Helper lemmas shared by the claim theorems. -/

theorem truthyStr_eq_true_iff (o : Option String) :
    truthyStr o = true ↔ ∃ s, o = some s ∧ s ≠ "" := by
  cases o with
  | none => simp [truthyStr]
  | some s => simp [truthyStr]

theorem truthyStr_isSome (o : Option String) (h : truthyStr o = true) :
    o.isSome = true := by
  cases o with
  | none => simp [truthyStr] at h
  | some s => rfl

theorem deselectAll_all_false (opts : List Opt) :
    (deselectAll opts).all (fun o => !o.selected) = true := by
  simp [deselectAll, List.all_eq_true]

theorem drawFilesTable_dataRowCount (meta : List FileMeta) :
    (drawFilesTable meta).dataRowCount = meta.length := by
  by_cases h : meta.isEmpty
  · simp [drawFilesTable, h, TableView.dataRowCount, List.isEmpty_iff.mp h]
  · simp [drawFilesTable, h, TableView.dataRowCount]

/-- C5: in variant 2, a change of the heading level control empties the title
select list, resets the files table to its empty placeholder, resets both
badges to zero and appends the re-scan instruction to the log. -/
theorem c5_level_change_invalidates_scan (st : V2.St) :
    (V2.levelChange st).titlesOpts = [] ∧
    (V2.levelChange st).table = TableView.placeholder ∧
    (V2.levelChange st).badgeArchivos = badgeArchivosText 0 ∧
    (V2.levelChange st).badgeTitulos = badgeTitulosText 0 ∧
    (V2.levelChange st).logs =
      st.logs ++ ["Nivel cambiado: vuelve a Escanear títulos."] := by
  refine ⟨rfl, ?_, rfl, rfl, rfl⟩
  simp [V2.levelChange, drawFilesTable]

/-- C6: in both variants, when the use-all checkbox transitions to checked the
change handler deselects every option of the title multi-select list, so no
explicit selection survives the event. -/
theorem c6_use_all_clears_selection (st1 : V1.St) (st2 : V2.St) :
    (V1.useAllChange true st1).whitelistOpts.all (fun o => !o.selected) = true ∧
    (V2.useAllChange true st2).titlesOpts.all (fun o => !o.selected) = true := by
  constructor
  · simp only [V1.useAllChange, if_pos rfl]
    exact deselectAll_all_false st1.whitelistOpts
  · simp only [V2.useAllChange, if_pos rfl]
    exact deselectAll_all_false st2.titlesOpts

/-- C4: in both variants, `cleanup` with no truthy token held issues no
request, leaves the token state unchanged and logs the no-uploads message;
with a token held it POSTs exactly that token to `/api/cleanup` and nulls the
local token state (both tokens in variant 1). -/
theorem c4_cleanup_noop_or_release (st1 : V1.St) (st2 : V2.St) :
    (truthyStr (jsOrStr st1.uploadToken st1.uploadDirToken) = false →
      (V1.cleanup st1).2 = [] ∧
      (V1.cleanup st1).1.uploadToken = st1.uploadToken ∧
      (V1.cleanup st1).1.uploadDirToken = st1.uploadDirToken ∧
      (V1.cleanup st1).1.logs = st1.logs ++ ["No hay subidas por limpiar."]) ∧
    (∀ t, jsOrStr st1.uploadToken st1.uploadDirToken = some t → t ≠ "" →
      (V1.cleanup st1).2 = [{ token := t }] ∧
      (V1.cleanup st1).1.uploadToken = none ∧
      (V1.cleanup st1).1.uploadDirToken = none ∧
      (V1.cleanup st1).1.logs = st1.logs ++ ["Subidas temporales limpiadas."]) ∧
    (truthyStr st2.uploadToken = false →
      (V2.cleanup st2).2 = [] ∧
      (V2.cleanup st2).1.uploadToken = st2.uploadToken ∧
      (V2.cleanup st2).1.logs = st2.logs ++ ["No hay subidas por limpiar."]) ∧
    (∀ t, st2.uploadToken = some t → t ≠ "" →
      (V2.cleanup st2).2 = [{ token := t }] ∧
      (V2.cleanup st2).1.uploadToken = none ∧
      (V2.cleanup st2).1.logs = st2.logs ++ ["Subidas temporales limpiadas."]) := by
  refine ⟨?_, ?_, ?_, ?_⟩
  · intro h
    simp [V1.cleanup, h]
  · intro t ht hne
    have hts : truthyStr (some t) = true := by simpa [truthyStr] using hne
    simp [V1.cleanup, ht, hts]
  · intro h
    simp [V2.cleanup, h]
  · intro t ht hne
    have hts : truthyStr (some t) = true := by simpa [truthyStr] using hne
    simp [V2.cleanup, ht, hts]

/-- Closed instance of C4: on the sample state holding token `tok-1`,
`cleanup` POSTs that token and nulls both local tokens. -/
theorem c4_cleanup_witness :
    (V1.cleanup v1StTok).2 = [{ token := "tok-1" }] ∧
    (V1.cleanup v1StTok).1.uploadToken = none ∧
    (V1.cleanup v1StTok).1.uploadDirToken = none ∧
    (V1.cleanup v1StTok).1.logs = [] ++ ["Subidas temporales limpiadas."] := by
  have h := (c4_cleanup_noop_or_release v1StTok v2StSel).2.1 "tok-1" rfl (by decide)
  exact h

/-- Characterization of every payload variant-1 `mergeNow` actually sends. -/
theorem v1_mergeNow_sent (st : V1.St) (inp : V1.Inputs) (p : V1.MergePayload)
    (h : (V1.mergeNow st inp).2 = some p) :
    p.source = st.lastSource ∧ p.mode = inp.mode ∧
    p.titles = (if inp.useAll then V1.TITULOS_WHITELIST
                else selectedValues st.whitelistOpts) ∧
    (inp.useAll = false → (selectedValues st.whitelistOpts).isEmpty = false) ∧
    (st.lastSource = V1.Source.folder →
      p.folder = some (jsTrim inp.folderValue) ∧ jsTrim inp.folderValue ≠ "" ∧
      p.include_subs = some inp.includeSubs ∧ p.token = none) ∧
    (st.lastSource = V1.Source.upload →
      p.token = st.uploadToken ∧ truthyStr st.uploadToken = true ∧
      p.folder = none ∧ p.include_subs = none) ∧
    (st.lastSource = V1.Source.upload_dir →
      p.token = st.uploadDirToken ∧ truthyStr st.uploadDirToken = true ∧
      p.folder = none ∧ p.include_subs = none) := by
  simp only [V1.mergeNow] at h
  split at h
  · simp at h
  · rename_i hguard
    have hsel : inp.useAll = false →
        (selectedValues st.whitelistOpts).isEmpty = false := by
      intro hu
      simpa [hu] using hguard
    split at h <;> rename_i hs
    · split at h <;> rename_i hf
      · simp at h
      · simp only [Option.some.injEq] at h
        subst h
        simp_all
    · split at h <;> rename_i ht
      · simp at h
      · simp only [Option.some.injEq] at h
        subst h
        simp_all
    · split at h <;> rename_i ht
      · simp at h
      · simp only [Option.some.injEq] at h
        subst h
        simp_all

/-- Characterization of every payload variant-2 `mergeNow` actually sends. -/
theorem v2_mergeNow_sent (st : V2.St) (inp : V2.Inputs) (p : V2.MergePayload)
    (h : (V2.mergeNow st inp).2 = some p) :
    p.source = st.lastSource ∧ p.mode = inp.mode ∧ p.level = inp.level ∧
    p.use_all = inp.useAll ∧
    p.titles = (if inp.useAll then [] else selectedValues st.titlesOpts) ∧
    (inp.useAll = false → (selectedValues st.titlesOpts).isEmpty = false) ∧
    (st.lastSource = V2.Source.folder →
      p.folder = some (jsTrim inp.folderValue) ∧ jsTrim inp.folderValue ≠ "" ∧
      p.include_subs = some inp.includeSubs ∧ p.token = none) ∧
    (st.lastSource = V2.Source.upload →
      p.token = st.uploadToken ∧ truthyStr st.uploadToken = true ∧
      p.folder = none ∧ p.include_subs = none) := by
  simp only [V2.mergeNow] at h
  split at h
  · simp at h
  · rename_i hguard
    have hsel : inp.useAll = false →
        (selectedValues st.titlesOpts).isEmpty = false := by
      intro hu
      simpa [hu] using hguard
    split at h <;> rename_i hs
    · split at h <;> rename_i hf
      · simp at h
      · simp only [Option.some.injEq] at h
        subst h
        simp_all
    · split at h <;> rename_i ht
      · simp at h
      · simp only [Option.some.injEq] at h
        subst h
        simp_all

/-- C1: every merge payload actually sent is mutually exclusive by source, in
both variants: a folder-source payload carries `folder` and `include_subs`
and no `token`; an upload-kind payload carries a `token` and neither `folder`
nor `include_subs`; no sent payload carries both a `folder` and a `token`. -/
theorem c1_merge_payload_source_exclusive :
    (∀ (st : V1.St) (inp : V1.Inputs) (p : V1.MergePayload),
      (V1.mergeNow st inp).2 = some p →
      (st.lastSource = V1.Source.folder →
        p.folder.isSome = true ∧ p.include_subs.isSome = true ∧
        p.token = none) ∧
      ((st.lastSource = V1.Source.upload ∨
        st.lastSource = V1.Source.upload_dir) →
        p.token.isSome = true ∧ p.folder = none ∧ p.include_subs = none) ∧
      ¬(p.folder.isSome = true ∧ p.token.isSome = true)) ∧
    (∀ (st : V2.St) (inp : V2.Inputs) (p : V2.MergePayload),
      (V2.mergeNow st inp).2 = some p →
      (st.lastSource = V2.Source.folder →
        p.folder.isSome = true ∧ p.include_subs.isSome = true ∧
        p.token = none) ∧
      (st.lastSource = V2.Source.upload →
        p.token.isSome = true ∧ p.folder = none ∧ p.include_subs = none) ∧
      ¬(p.folder.isSome = true ∧ p.token.isSome = true)) := by
  constructor
  · intro st inp p h
    obtain ⟨-, -, -, -, hfold, hup, hdir⟩ := v1_mergeNow_sent st inp p h
    refine ⟨?_, ?_, ?_⟩
    · intro hs
      obtain ⟨h1, -, h3, h4⟩ := hfold hs
      simp [h1, h3, h4]
    · rintro (hs | hs)
      · obtain ⟨h1, h2, h3, h4⟩ := hup hs
        exact ⟨h1 ▸ truthyStr_isSome _ h2, h3, h4⟩
      · obtain ⟨h1, h2, h3, h4⟩ := hdir hs
        exact ⟨h1 ▸ truthyStr_isSome _ h2, h3, h4⟩
    · rintro ⟨hf, ht⟩
      cases hs : st.lastSource with
      | folder => obtain ⟨-, -, -, h4⟩ := hfold hs; simp [h4] at ht
      | upload => obtain ⟨-, -, h3, -⟩ := hup hs; simp [h3] at hf
      | upload_dir => obtain ⟨-, -, h3, -⟩ := hdir hs; simp [h3] at hf
  · intro st inp p h
    obtain ⟨-, -, -, -, -, -, hfold, hup⟩ := v2_mergeNow_sent st inp p h
    refine ⟨?_, ?_, ?_⟩
    · intro hs
      obtain ⟨h1, -, h3, h4⟩ := hfold hs
      simp [h1, h3, h4]
    · intro hs
      obtain ⟨h1, h2, h3, h4⟩ := hup hs
      exact ⟨h1 ▸ truthyStr_isSome _ h2, h3, h4⟩
    · rintro ⟨hf, ht⟩
      cases hs : st.lastSource with
      | folder => obtain ⟨-, -, -, h4⟩ := hfold hs; simp [h4] at ht
      | upload => obtain ⟨-, -, h3, -⟩ := hup hs; simp [h3] at hf

/-- Closed instance of C1: the payload sent from the folder source carries
`folder` and `include_subs` and no `token`. -/
theorem c1_merge_payload_witness :
    v1Payload.folder.isSome = true ∧ v1Payload.include_subs.isSome = true ∧
    v1Payload.token = none :=
  (c1_merge_payload_source_exclusive.1 v1StSel v1Inp v1Payload (by decide)).1
    rfl

/-- C2: in both variants, `mergeNow` sends no merge request when client-side
validation fails — no titles selected without use-all, an empty trimmed
folder path for the folder source, or a missing token for an upload source —
and instead appends exactly one prompt message to the log. -/
theorem c2_merge_validation_blocks :
    (∀ (st : V1.St) (inp : V1.Inputs),
      ((inp.useAll = false ∧ selectedValues st.whitelistOpts = []) ∨
       (st.lastSource = V1.Source.folder ∧ jsTrim inp.folderValue = "") ∨
       (st.lastSource = V1.Source.upload ∧
        truthyStr st.uploadToken = false) ∨
       (st.lastSource = V1.Source.upload_dir ∧
        truthyStr st.uploadDirToken = false)) →
      (V1.mergeNow st inp).2 = none ∧
      ∃ m, (V1.mergeNow st inp).1.logs = st.logs ++ [m]) ∧
    (∀ (st : V2.St) (inp : V2.Inputs),
      ((inp.useAll = false ∧ selectedValues st.titlesOpts = []) ∨
       (st.lastSource = V2.Source.folder ∧ jsTrim inp.folderValue = "") ∨
       (st.lastSource = V2.Source.upload ∧
        truthyStr st.uploadToken = false)) →
      (V2.mergeNow st inp).2 = none ∧
      ∃ m, (V2.mergeNow st inp).1.logs = st.logs ++ [m]) := by
  constructor
  · intro st inp hcond
    by_cases hg :
        (!inp.useAll && (selectedValues st.whitelistOpts).isEmpty) = true
    · exact ⟨by simp [V1.mergeNow, hg],
             ⟨"Selecciona al menos un título o marca \x27Usar todos\x27.",
              by simp [V1.mergeNow, hg]⟩⟩
    · rcases hcond with ⟨hu, hsel⟩ | ⟨hs, hf⟩ | ⟨hs, ht⟩ | ⟨hs, ht⟩
      · exact absurd (by simp [hu, hsel]) hg
      · exact ⟨by simp [V1.mergeNow, hg, hs, hf],
               ⟨"Ingresa la ruta de la carpeta.",
                by simp [V1.mergeNow, hg, hs, hf]⟩⟩
      · exact ⟨by simp [V1.mergeNow, hg, hs, ht],
               ⟨"Primero sube y escanea archivos.",
                by simp [V1.mergeNow, hg, hs, ht]⟩⟩
      · exact ⟨by simp [V1.mergeNow, hg, hs, ht],
               ⟨"Primero sube y escanea la carpeta.",
                by simp [V1.mergeNow, hg, hs, ht]⟩⟩
  · intro st inp hcond
    by_cases hg :
        (!inp.useAll && (selectedValues st.titlesOpts).isEmpty) = true
    · exact ⟨by simp [V2.mergeNow, hg],
             ⟨"Selecciona al menos un título o marca \x27Usar todos\x27.",
              by simp [V2.mergeNow, hg]⟩⟩
    · rcases hcond with ⟨hu, hsel⟩ | ⟨hs, hf⟩ | ⟨hs, ht⟩
      · exact absurd (by simp [hu, hsel]) hg
      · exact ⟨by simp [V2.mergeNow, hg, hs, hf],
               ⟨"Ingresa la ruta de la carpeta.",
                by simp [V2.mergeNow, hg, hs, hf]⟩⟩
      · exact ⟨by simp [V2.mergeNow, hg, hs, ht],
               ⟨"Primero sube y escanea archivos.",
                by simp [V2.mergeNow, hg, hs, ht]⟩⟩

/-- Closed instance of C2: with use-all unchecked and nothing selected, no
merge request is produced and the prompt is logged. -/
theorem c2_merge_validation_witness :
    (V1.mergeNow v1StEmpty v1Inp).2 = none ∧
    (V1.mergeNow v1StEmpty v1Inp).1.logs =
      ["Selecciona al menos un título o marca \x27Usar todos\x27."] :=
  ⟨(c2_merge_validation_blocks.1 v1StEmpty v1Inp
      (Or.inl ⟨rfl, by decide⟩)).1,
   by decide⟩

/-- C3: in every sent merge payload `titles` is empty only when use-all is on:
with use-all off a non-empty selection is enforced (both variants); with
use-all on, variant 1 sends the full fixed whitelist as `titles` while
variant 2 sends an empty `titles` list together with `use_all = true`. -/
theorem c3_titles_empty_only_with_use_all :
    (∀ (st : V1.St) (inp : V1.Inputs) (p : V1.MergePayload),
      (V1.mergeNow st inp).2 = some p →
      p.titles ≠ [] ∧
      (inp.useAll = true → p.titles = V1.TITULOS_WHITELIST) ∧
      (inp.useAll = false → p.titles = selectedValues st.whitelistOpts)) ∧
    (∀ (st : V2.St) (inp : V2.Inputs) (p : V2.MergePayload),
      (V2.mergeNow st inp).2 = some p →
      (p.titles = [] → p.use_all = true) ∧
      (inp.useAll = true → p.titles = [] ∧ p.use_all = true) ∧
      (inp.useAll = false → p.titles ≠ [])) := by
  constructor
  · intro st inp p h
    obtain ⟨-, -, htit, hsel, -, -, -⟩ := v1_mergeNow_sent st inp p h
    by_cases hu : inp.useAll = true
    · have ht1 : p.titles = V1.TITULOS_WHITELIST := by rw [htit, if_pos hu]
      refine ⟨by rw [ht1]; decide, fun _ => ht1,
              fun hfalse => absurd hu (by simp [hfalse])⟩
    · have hu0 : inp.useAll = false := by simpa using hu
      have hne := hsel hu0
      have ht1 : p.titles = selectedValues st.whitelistOpts := by
        rw [htit, if_neg hu]
      have hnn : p.titles ≠ [] := by
        rw [ht1]
        intro hnil
        rw [hnil] at hne
        simp at hne
      exact ⟨hnn, fun htrue => absurd htrue hu, fun _ => ht1⟩
  · intro st inp p h
    obtain ⟨-, -, -, hua, htit, hsel, -, -⟩ := v2_mergeNow_sent st inp p h
    by_cases hu : inp.useAll = true
    · have ht1 : p.titles = [] := by rw [htit, if_pos hu]
      exact ⟨fun _ => hua.trans hu, fun _ => ⟨ht1, hua.trans hu⟩,
             fun hfalse => absurd hu (by simp [hfalse])⟩
    · have hu0 : inp.useAll = false := by simpa using hu
      have hne := hsel hu0
      have ht1 : p.titles = selectedValues st.titlesOpts := by
        rw [htit, if_neg hu]
      have hnn : p.titles ≠ [] := by
        rw [ht1]
        intro hnil
        rw [hnil] at hne
        simp at hne
      exact ⟨fun hnil => absurd hnil hnn, fun htrue => absurd htrue hu,
             fun _ => hnn⟩

/-- Closed instance of C3: the variant-2 payload sent with use-all checked
carries an empty `titles` list and `use_all = true`. -/
theorem c3_titles_witness :
    v2Payload.titles = [] ∧ v2Payload.use_all = true :=
  (c3_titles_empty_only_with_use_all.2 v2StTok v2InpAll v2Payload
      (by decide)).2.1 rfl

/-- C7: for every scan operation in either variant, a non-ok server response
makes the client append `ERROR: ` followed by the server error string (or the
HTTP status when absent) to the log, issue exactly the one original request
(no retry), and store neither file metadata nor an upload token from that
response (the token and metadata fields keep their pre-fetch values). -/
theorem c7_scan_error_logs_and_stores_nothing :
    (∀ (st : V1.St) (inp : V1.Inputs) (resp : V1.ScanResponse),
      resp.ok = false →
      ((V1.scanFolder st inp resp).1.logs =
        st.logs ++ ["Escaneando carpeta en servidor...",
          "ERROR: " ++ errorOrStatus resp.error resp.status] ∧
       (V1.scanFolder st inp resp).1.lastFilesMeta = st.lastFilesMeta ∧
       (V1.scanFolder st inp resp).1.uploadToken = none ∧
       (V1.scanFolder st inp resp).1.uploadDirToken = none ∧
       (V1.scanFolder st inp resp).2.length = 1) ∧
      (inp.filesList.isEmpty = false →
       (V1.scanUpload st inp resp).1.logs =
        st.logs ++ ["Subiendo " ++ toString inp.filesList.length ++
            " archivo(s)...",
          "ERROR: " ++ errorOrStatus resp.error resp.status] ∧
       (V1.scanUpload st inp resp).1.lastFilesMeta = st.lastFilesMeta ∧
       (V1.scanUpload st inp resp).1.uploadToken = st.uploadToken ∧
       (V1.scanUpload st inp resp).1.uploadDirToken = none ∧
       (V1.scanUpload st inp resp).2.length = 1) ∧
      (inp.folderInputList.isEmpty = false →
       (V1.scanUploadDir st inp resp).1.logs =
        st.logs ++ ["Subiendo carpeta con " ++
            toString inp.folderInputList.length ++ " archivo(s)...",
          "ERROR: " ++ errorOrStatus resp.error resp.status] ∧
       (V1.scanUploadDir st inp resp).1.lastFilesMeta = st.lastFilesMeta ∧
       (V1.scanUploadDir st inp resp).1.uploadToken = none ∧
       (V1.scanUploadDir st inp resp).1.uploadDirToken = st.uploadDirToken ∧
       (V1.scanUploadDir st inp resp).2.length = 1)) ∧
    (∀ (st : V2.St) (inp : V2.Inputs) (resp : V2.ScanResponse),
      resp.ok = false →
      ((V2.scanFolder st inp resp).1.logs =
        st.logs ++ ["Escaneando carpeta...",
          "ERROR: " ++ errorOrStatus resp.error resp.status] ∧
       (V2.scanFolder st inp resp).1.lastFilesMeta = st.lastFilesMeta ∧
       (V2.scanFolder st inp resp).1.uploadToken = none ∧
       (V2.scanFolder st inp resp).2.length = 1) ∧
      (inp.filesList.isEmpty = false →
       (V2.scanUpload st inp resp).1.logs =
        st.logs ++ ["Subiendo " ++ toString inp.filesList.length ++
            " archivo(s)...",
          "ERROR: " ++ errorOrStatus resp.error resp.status] ∧
       (V2.scanUpload st inp resp).1.lastFilesMeta = st.lastFilesMeta ∧
       (V2.scanUpload st inp resp).1.uploadToken = st.uploadToken ∧
       (V2.scanUpload st inp resp).2.length = 1)) := by
  constructor
  · intro st inp resp hok
    refine ⟨?_, fun hne => ?_, fun hne => ?_⟩
    · simp [V1.scanFolder, hok]
    · simp [V1.scanUpload, hok, hne]
    · simp [V1.scanUploadDir, hok, hne]
  · intro st inp resp hok
    refine ⟨?_, fun hne => ?_⟩
    · simp [V2.scanFolder, hok]
    · simp [V2.scanUpload, hok, hne]

/-- Closed instance of C7: a failed upload scan logs the server error, keeps
the prior token state and sends exactly one request. -/
theorem c7_scan_error_witness :
    (V1.scanUpload v1StTok v1Inp v1RespFail).1.logs =
      ["Subiendo 1 archivo(s)...", "ERROR: boom"] ∧
    (V1.scanUpload v1StTok v1Inp v1RespFail).1.uploadToken = some "tok-1" ∧
    (V1.scanUpload v1StTok v1Inp v1RespFail).2.length = 1 := by
  have h :=
    ((c7_scan_error_logs_and_stores_nothing.1 v1StTok v1Inp v1RespFail
        rfl).2.1 rfl)
  exact ⟨h.1.trans (by decide), h.2.2.1, h.2.2.2.2⟩

/-- C8: after a successful variant-1 folder scan the rendered files table has
exactly one data row per `files_meta` entry while the files badge displays
the response's `count`; `drawFilesTable` always renders one row per entry, so
a count that differs from the `files_meta` length makes badge and table
disagree. -/
theorem c8_table_rows_vs_badge :
    (∀ meta, (drawFilesTable meta).dataRowCount = meta.length) ∧
    (∀ (st : V1.St) (inp : V1.Inputs) (resp : V1.ScanResponse),
      resp.ok = true →
      (V1.scanFolder st inp resp).1.table =
        drawFilesTable (resp.files_meta.getD []) ∧
      (V1.scanFolder st inp resp).1.table.dataRowCount =
        (resp.files_meta.getD []).length ∧
      (V1.scanFolder st inp resp).1.badgeArchivos =
        badgeArchivosText (resp.count.getD 0)) := by
  refine ⟨drawFilesTable_dataRowCount, ?_⟩
  intro st inp resp hok
  refine ⟨?_, ?_, ?_⟩
  · simp [V1.scanFolder, hok]
  · simp [V1.scanFolder, hok, drawFilesTable_dataRowCount]
  · simp [V1.scanFolder, hok]

/-- Closed instance of C8, the documented edge case: an ok response with
`count: 2` and one `files_meta` entry renders a `2 archivos` badge over a
one-row table, so the displayed numbers disagree. -/
theorem c8_table_rows_vs_badge_witness :
    (V1.scanFolder v1StSel v1Inp v1RespMismatch).1.badgeArchivos =
      "2 archivos" ∧
    (V1.scanFolder v1StSel v1Inp v1RespMismatch).1.table.dataRowCount = 1 ∧
    (V1.scanFolder v1StSel v1Inp v1RespMismatch).1.badgeArchivos ≠
      badgeArchivosText
        (V1.scanFolder v1StSel v1Inp v1RespMismatch).1.table.dataRowCount := by
  have h := c8_table_rows_vs_badge.2 v1StSel v1Inp v1RespMismatch rfl
  exact ⟨h.2.2.trans (by decide), h.2.1.trans (by decide), by decide⟩

/-- C9: in variant 1 at most one of `uploadToken` and `uploadDirToken` is
non-null: the initial state satisfies this and every operation (`scanFolder`,
`scanUpload`, `scanUploadDir`, `cleanup`) preserves it, on every path. -/
theorem c9_token_cross_kind_exclusivity :
    V1.tokExcl V1.initSt ∧
    ∀ (st : V1.St) (inp : V1.Inputs) (resp : V1.ScanResponse),
      V1.tokExcl st →
      V1.tokExcl (V1.scanFolder st inp resp).1 ∧
      V1.tokExcl (V1.scanUpload st inp resp).1 ∧
      V1.tokExcl (V1.scanUploadDir st inp resp).1 ∧
      V1.tokExcl (V1.cleanup st).1 := by
  refine ⟨Or.inl rfl, ?_⟩
  intro st inp resp hex
  refine ⟨?_, ?_, ?_, ?_⟩
  · by_cases hok : resp.ok = true
    · simp [V1.scanFolder, V1.tokExcl, hok]
    · have hok0 : resp.ok = false := by simpa using hok
      simp [V1.scanFolder, V1.tokExcl, hok0]
  · by_cases hfe : inp.filesList.isEmpty = true
    · simp [V1.scanUpload, V1.tokExcl, hfe]
    · have hfe0 : inp.filesList.isEmpty = false := by simpa using hfe
      by_cases hok : resp.ok = true
      · simp [V1.scanUpload, V1.tokExcl, hfe0, hok]
      · have hok0 : resp.ok = false := by simpa using hok
        simp [V1.scanUpload, V1.tokExcl, hfe0, hok0]
  · by_cases hfe : inp.folderInputList.isEmpty = true
    · simp [V1.scanUploadDir, V1.tokExcl, hfe]
    · have hfe0 : inp.folderInputList.isEmpty = false := by simpa using hfe
      by_cases hok : resp.ok = true
      · simp [V1.scanUploadDir, V1.tokExcl, hfe0, hok]
      · have hok0 : resp.ok = false := by simpa using hok
        simp [V1.scanUploadDir, V1.tokExcl, hfe0, hok0]
  · by_cases ht : truthyStr (jsOrStr st.uploadToken st.uploadDirToken) = true
    · simp [V1.cleanup, V1.tokExcl, ht]
    · have ht0 : truthyStr (jsOrStr st.uploadToken st.uploadDirToken) = false := by
        simpa using ht
      simpa [V1.cleanup, V1.tokExcl, ht0] using hex

/-- Closed instance of C9: the exclusivity holds after an upload scan from
the initial state and after cleanup of a token-holding state. -/
theorem c9_token_exclusivity_witness :
    V1.tokExcl (V1.scanUpload V1.initSt v1Inp v1RespFail).1 ∧
    V1.tokExcl (V1.cleanup v1StTok).1 :=
  ⟨(c9_token_cross_kind_exclusivity.2 V1.initSt v1Inp v1RespFail
      (Or.inl rfl)).2.1,
   (c9_token_cross_kind_exclusivity.2 v1StTok v1Inp v1RespFail
      (Or.inr rfl)).2.2.2⟩

/-- C10: variant-1 `scanUploadDir` applies its emptiness guard to the raw
directory file list, before the `.docx` filter: any non-empty selection of
only non-`.docx` files passes the guard, and the scan-upload request goes out
carrying the whitelist and an empty file list. -/
theorem c10_dir_scan_guard_before_filter (st : V1.St) (inp : V1.Inputs)
    (resp : V1.ScanResponse)
    (h1 : inp.folderInputList ≠ [])
    (h2 : ∀ f ∈ inp.folderInputList, jsEndsWith (jsToLower f) ".docx" = false) :
    (V1.scanUploadDir st inp resp).2 =
      [{ whitelist := V1.TITULOS_WHITELIST, files := [] }] := by
  have hfe : inp.folderInputList.isEmpty = false := by
    simpa [List.isEmpty_iff] using h1
  have hfil : inp.folderInputList.filter
      (fun f => jsEndsWith (jsToLower f) ".docx") = [] := by
    rw [List.filter_eq_nil_iff]
    intro a ha
    simp [h2 a ha]
  by_cases hok : resp.ok = true
  · simp [V1.scanUploadDir, hfe, hok, hfil]
  · have hok0 : resp.ok = false := by simpa using hok
    simp [V1.scanUploadDir, hfe, hok0, hfil]

/-- Closed instance of C10: a directory pick holding only `b.pdf` still sends
a scan-upload request, with the whitelist and zero files. -/
theorem c10_dir_scan_witness :
    (V1.scanUploadDir v1StSel v1Inp v1RespFail).2 =
      [{ whitelist := V1.TITULOS_WHITELIST, files := [] }] :=
  c10_dir_scan_guard_before_filter v1StSel v1Inp v1RespFail (by decide)
    (by decide)
